import Mathlib

/-
  Shallow embedding of the availability-accounting and borrowing-state
  subsystem of the uni-lib-verse repository.

  Sources embedded here:
  - supabase/migrations/20251005115417 (tables books, borrowing_records,
    reservations; enums; row-level policies)
  - supabase/migrations/20251006013346 (decrement_available_copies,
    increment_available_copies)
  - the client handlers: handleBorrow and handleReserve (BookDetail page),
    handleApprove / handleReject / handleReturn (BorrowingManagement page),
    handleRenew and handleCancelReservation (Dashboard page).

  Timestamps are modelled as integers counting days; uuid columns are
  modelled as Nat identifiers.  Each handler is a function from the library
  state to Except LibError LibState; an error result leaves no successor
  state, matching the failure-leaves-state-unchanged reading of a rejected
  database call.
-/

namespace UniLib

/-- Borrowing status enum from the migration: CREATE TYPE borrowing_status
    AS ENUM (pending, approved, rejected, active, returned, overdue). -/
inductive BorrowStatus
  | pending
  | approved
  | rejected
  | active
  | returned
  | overdue
deriving DecidableEq

/-- Reservation status enum from the migration: CREATE TYPE
    reservation_status AS ENUM (active, fulfilled, cancelled, expired). -/
inductive ReservationStatus
  | active
  | fulfilled
  | cancelled
  | expired
deriving DecidableEq

/-- Book row: the columns of public.books that the circulation core reads
    or writes.  SQL INTEGER columns become Int. -/
structure Book where
  id : Nat
  total_copies : Int
  available_copies : Int
  requires_approval : Bool
  max_borrow_days : Int
deriving DecidableEq

/-- Borrowing record row: the columns of public.borrowing_records used by
    the handlers.  Nullable timestamp columns become Option Int. -/
structure BorrowingRecord where
  id : Nat
  user_id : Nat
  book_id : Nat
  status : BorrowStatus
  request_date : Int
  approval_date : Option Int
  approved_by : Option Nat
  borrow_date : Option Int
  due_date : Option Int
  return_date : Option Int
  renewal_count : Int
deriving DecidableEq

/-- Reservation row from public.reservations. -/
structure Reservation where
  id : Nat
  user_id : Nat
  book_id : Nat
  status : ReservationStatus
  reservation_date : Int
  expiry_date : Int
deriving DecidableEq

/-- The durable state the circulation core touches: the three tables. -/
structure LibState where
  books : List Book
  records : List BorrowingRecord
  reservations : List Reservation
deriving DecidableEq

/-- Error taxonomy of the spec; a handler that fails surfaces one of
    these.  Unauthorized stands for a row-level policy rejecting a write
    and DuplicateReservation for the unique-key violation on
    reservations. -/
inductive LibError
  | Unauthorized
  | NoCopiesAvailable
  | InvalidTransition
  | RenewalLimitReached
  | DuplicateReservation
deriving DecidableEq

/-- Function public.decrement_available_copies: UPDATE books SET
    available_copies = GREATEST(available_copies - 1, 0) WHERE id =
    book_id.  The plpgsql UPDATE raises nothing when no row matches, so
    the model is a total function with no error outcome. -/
def decrement_available_copies (book_id : Nat) (books : List Book) : List Book :=
  books.map fun b =>
    if b.id = book_id then
      { b with available_copies := max (b.available_copies - 1) 0 }
    else b

/-- Function public.increment_available_copies: UPDATE books SET
    available_copies = LEAST(available_copies + 1, total_copies) WHERE id
    = book_id.  Total, no error outcome, like the decrement. -/
def increment_available_copies (book_id : Nat) (books : List Book) : List Book :=
  books.map fun b =>
    if b.id = book_id then
      { b with available_copies := min (b.available_copies + 1) b.total_copies }
    else b

/-- Row lookup by primary key on borrowing_records. -/
def getRecord (recordId : Nat) (st : LibState) : Option BorrowingRecord :=
  st.records.find? fun q => decide (q.id = recordId)

/-- Row lookup by primary key on books. -/
def getBook (bookId : Nat) (st : LibState) : Option Book :=
  st.books.find? fun b => decide (b.id = bookId)

/-- Row-level insert policy on borrowing_records: WITH CHECK (auth.uid()
    = user_id AND status = pending). -/
def canInsertBorrowingRecord (uid : Nat) (r : BorrowingRecord) : Bool :=
  decide (uid = r.user_id ∧ r.status = BorrowStatus.pending)

/-- Unique-key check on reservations: UNIQUE(user_id, book_id, status)
    rejects an insert exactly when a row with the same triple exists. -/
def reservationKeyClash (r : Reservation) (l : List Reservation) : Bool :=
  l.any fun s => decide (s.user_id = r.user_id ∧ s.book_id = r.book_id ∧ s.status = r.status)

/-- Handler handleBorrow (BookDetail page): inserts a borrowing_records
    row carrying only user_id, book_id and status, where status is
    pending when the book requires approval and active otherwise.  The
    remaining columns take their table defaults (request_date NOW,
    renewal_count 0, the rest NULL).  The insert passes through the
    row-level WITH CHECK policy; a rejected insert surfaces as an error
    and writes nothing. -/
def handleBorrow (uid : Nat) (book : Book) (newId : Nat) (now : Int)
    (st : LibState) : Except LibError LibState :=
  let newRec : BorrowingRecord :=
    { id := newId
      user_id := uid
      book_id := book.id
      status := if book.requires_approval then .pending else .active
      request_date := now
      approval_date := none
      approved_by := none
      borrow_date := none
      due_date := none
      return_date := none
      renewal_count := 0 }
  if canInsertBorrowingRecord uid newRec then
    .ok { st with records := newRec :: st.records }
  else
    .error .Unauthorized

/-- Handler handleApprove (BorrowingManagement page): updates the row with
    the given record id to status active with approved_by, approval_date,
    borrow_date set to now and due_date to now + maxBorrowDays, filtering
    only on the id (no status condition), then calls the decrement
    procedure on the book.  Neither step can fail. -/
def handleApprove (actor recordId bookId : Nat) (maxBorrowDays now : Int)
    (st : LibState) : Except LibError LibState :=
  let records := st.records.map fun q =>
    if q.id = recordId then
      { q with
          status := .active
          approved_by := some actor
          approval_date := some now
          borrow_date := some now
          due_date := some (now + maxBorrowDays) }
    else q
  .ok { st with
          records := records
          books := decrement_available_copies bookId st.books }

/-- Handler handleReject (BorrowingManagement page): updates the row with
    the given id to status rejected with approved_by and approval_date
    set, filtering only on the id. -/
def handleReject (actor recordId : Nat) (now : Int)
    (st : LibState) : Except LibError LibState :=
  .ok { st with
          records := st.records.map fun q =>
            if q.id = recordId then
              { q with status := .rejected, approved_by := some actor,
                       approval_date := some now }
            else q }

/-- Handler handleReturn (BorrowingManagement and MyBorrowings pages):
    updates the row with the given id to status returned with return_date
    = now, filtering only on the id, then calls the increment procedure
    on the book. -/
def handleReturn (recordId bookId : Nat) (now : Int)
    (st : LibState) : Except LibError LibState :=
  .ok { st with
          records := st.records.map fun q =>
            if q.id = recordId then
              { q with status := .returned, return_date := some now }
            else q
          books := increment_available_copies bookId st.books }

/-- Handler handleRenew (Dashboard page): finds the record (silently
    returning when it is absent, as the code does), fails with the
    renewal-limit message when renewal_count is at least 2, and otherwise
    sets due_date to the current due_date plus the joined books row field
    max_borrow_days and renewal_count to renewal_count + 1.  The foreign
    key from borrowing_records to books makes the joined book present in
    the database, so the missing-book branch is unreachable there; the
    model makes it a no-op. -/
def handleRenew (recordId : Nat) (st : LibState) : Except LibError LibState :=
  match getRecord recordId st with
  | none => .ok st
  | some r =>
    if r.renewal_count ≥ 2 then
      .error .RenewalLimitReached
    else
      match getBook r.book_id st with
      | none => .ok st
      | some b =>
        .ok { st with
                records := st.records.map fun q =>
                  if q.id = recordId then
                    { q with
                        due_date := r.due_date.map (· + b.max_borrow_days)
                        renewal_count := r.renewal_count + 1 }
                  else q }

/-- Handler handleReserve (BookDetail page): inserts a reservations row
    for the acting user with expiry_date = now + 7 days; status takes the
    table default active.  The UNIQUE(user_id, book_id, status)
    constraint rejects the insert when a row with the same triple already
    exists, writing nothing. -/
def handleReserve (uid bookId newId : Nat) (now : Int)
    (st : LibState) : Except LibError LibState :=
  let newRes : Reservation :=
    { id := newId
      user_id := uid
      book_id := bookId
      status := .active
      reservation_date := now
      expiry_date := now + 7 }
  if reservationKeyClash newRes st.reservations then
    .error .DuplicateReservation
  else
    .ok { st with reservations := newRes :: st.reservations }

/-- Handler handleCancelReservation (Dashboard page): updates the row
    with the given id to status cancelled. -/
def handleCancelReservation (reservationId : Nat)
    (st : LibState) : Except LibError LibState :=
  .ok { st with
          reservations := st.reservations.map fun s =>
            if s.id = reservationId then { s with status := .cancelled } else s }

/-- One step of the circulation core: every operation the claims range
    over, dispatching to the handler embeddings above.  The dec and inc
    arms are direct calls of the two counter procedures. -/
inductive Op
  | borrow (uid : Nat) (book : Book) (newId : Nat) (now : Int)
  | approve (actor recordId bookId : Nat) (maxBorrowDays now : Int)
  | reject (actor recordId : Nat) (now : Int)
  | ret (recordId bookId : Nat) (now : Int)
  | renew (recordId : Nat)
  | reserve (uid bookId newId : Nat) (now : Int)
  | cancel (reservationId : Nat)
  | dec (bookId : Nat)
  | inc (bookId : Nat)

/-- Apply one operation to the state. -/
def applyOp : Op → LibState → Except LibError LibState
  | .borrow uid book newId now, st => handleBorrow uid book newId now st
  | .approve actor recordId bookId d now, st => handleApprove actor recordId bookId d now st
  | .reject actor recordId now, st => handleReject actor recordId now st
  | .ret recordId bookId now, st => handleReturn recordId bookId now st
  | .renew recordId, st => handleRenew recordId st
  | .reserve uid bookId newId now, st => handleReserve uid bookId newId now st
  | .cancel reservationId, st => handleCancelReservation reservationId st
  | .dec bookId, st => .ok { st with books := decrement_available_copies bookId st.books }
  | .inc bookId, st => .ok { st with books := increment_available_copies bookId st.books }

/-- Availability invariant on one book row, matching the two CHECK
    constraints on public.books. -/
def bookInv (b : Book) : Prop :=
  0 ≤ b.available_copies ∧ b.available_copies ≤ b.total_copies

instance (b : Book) : Decidable (bookInv b) := by
  unfold bookInv; infer_instance

/-- Availability invariant over the whole books table. -/
def booksInv (st : LibState) : Prop :=
  ∀ b ∈ st.books, bookInv b

instance (st : LibState) : Decidable (booksInv st) := by
  unfold booksInv; exact List.decidableBAll _ _

/-- Reservation uniqueness invariant: no two rows of the table are both
    active for the same (user, book) pair. -/
def resInv (l : List Reservation) : Prop :=
  l.Pairwise fun a c =>
    ¬(a.status = .active ∧ c.status = .active ∧
      a.user_id = c.user_id ∧ a.book_id = c.book_id)

/-- The allowed status adjacencies of the spec state machine. -/
def allowedEdge (s t : BorrowStatus) : Bool :=
  decide ((s = .pending ∧ t = .active) ∨ (s = .pending ∧ t = .rejected) ∨
          (s = .active ∧ t = .returned))

/-- Status under which the interface offers an operation on a record:
    true when the record is absent or has the given status. -/
def recordStatusIs (recordId : Nat) (s : BorrowStatus) (st : LibState) : Bool :=
  match getRecord recordId st with
  | none => true
  | some r => decide (r.status = s)

/-- The gating the interface performs before invoking a handler: the
    approve and reject buttons render only on pending records, the return
    and renew buttons only on active ones, and inserted primary keys are
    fresh.  Operations that mutate no record carry no gate. -/
def uiGuard : Op → LibState → Bool
  | .borrow _ _ newId _, st => (getRecord newId st).isNone
  | .approve _ recordId _ _ _, st => recordStatusIs recordId .pending st
  | .reject _ recordId _, st => recordStatusIs recordId .pending st
  | .ret recordId _ _, st => recordStatusIs recordId .active st
  | .renew recordId, st => recordStatusIs recordId .active st
  | .reserve _ _ _ _, _ => true
  | .cancel _, _ => true
  | .dec _, _ => true
  | .inc _, _ => true

/- Helper lemmas about find? over row updates. -/

theorem find_map_pred_inv {α : Type} (p : α → Bool) (u : α → α)
    (hu : ∀ a, p (u a) = p a) :
    ∀ l : List α, (l.map u).find? p = (l.find? p).map u := by
  intro l
  induction l with
  | nil => rfl
  | cons a t ih =>
    cases hpa : p a with
    | true =>
      have h1 : p (u a) = true := by rw [hu, hpa]
      simp [List.find?, h1, hpa]
    | false =>
      have h1 : p (u a) = false := by rw [hu, hpa]
      simp [List.find?, h1, hpa, ih]

theorem getRecord_of_map (rid : Nat) (st : LibState)
    (u : BorrowingRecord → BorrowingRecord) (hu : ∀ q, (u q).id = q.id)
    (books : List Book) (res : List Reservation) :
    getRecord rid { books := books, records := st.records.map u, reservations := res } =
      (getRecord rid st).map u := by
  unfold getRecord
  exact find_map_pred_inv _ u (fun a => by rw [hu]) st.records

theorem getBook_of_map (bid : Nat) (st : LibState)
    (u : Book → Book) (hu : ∀ b, (u b).id = b.id)
    (recs : List BorrowingRecord) (res : List Reservation) :
    getBook bid { books := st.books.map u, records := recs, reservations := res } =
      (getBook bid st).map u := by
  unfold getBook
  exact find_map_pred_inv _ u (fun a => by rw [hu]) st.books

theorem getRecord_id {rid : Nat} {st : LibState} {r : BorrowingRecord}
    (h : getRecord rid st = some r) : r.id = rid := by
  have := List.find?_some h
  exact of_decide_eq_true this

theorem getBook_id {bid : Nat} {st : LibState} {b : Book}
    (h : getBook bid st = some b) : b.id = bid := by
  have := List.find?_some h
  exact of_decide_eq_true this

theorem decrement_preserves_inv (bid : Nat) (books : List Book)
    (h : ∀ b ∈ books, bookInv b) :
    ∀ b ∈ decrement_available_copies bid books, bookInv b := by
  intro b hb
  unfold decrement_available_copies at hb
  rcases List.mem_map.mp hb with ⟨a, ha, rfl⟩
  have hia := h a ha
  by_cases hid : a.id = bid
  · rw [if_pos hid]
    obtain ⟨h0, h1⟩ := hia
    show 0 ≤ max (a.available_copies - 1) 0 ∧
         max (a.available_copies - 1) 0 ≤ a.total_copies
    exact ⟨le_max_right _ _, max_le (by omega) (by omega)⟩
  · rw [if_neg hid]
    exact hia

theorem increment_preserves_inv (bid : Nat) (books : List Book)
    (h : ∀ b ∈ books, bookInv b) :
    ∀ b ∈ increment_available_copies bid books, bookInv b := by
  intro b hb
  unfold increment_available_copies at hb
  rcases List.mem_map.mp hb with ⟨a, ha, rfl⟩
  have hia := h a ha
  by_cases hid : a.id = bid
  · rw [if_pos hid]
    obtain ⟨h0, h1⟩ := hia
    show 0 ≤ min (a.available_copies + 1) a.total_copies ∧
         min (a.available_copies + 1) a.total_copies ≤ a.total_copies
    exact ⟨le_min (by omega) (by omega), min_le_right _ _⟩
  · rw [if_neg hid]
    exact hia

theorem map_update_not_found {α : Type} (idf : α → Nat) (k : Nat) (g : α → α)
    (l : List α) (h : ∀ a ∈ l, idf a ≠ k) :
    (l.map fun a => if idf a = k then g a else a) = l := by
  induction l with
  | nil => rfl
  | cons a t ih =>
    rw [List.map_cons, if_neg (h a (by simp)),
        ih (fun x hx => h x (List.mem_cons_of_mem a hx))]

/-- Effect of handleApprove on the approved record and its book: the call
    always returns ok, rewrites the record to active with the approval
    fields set, and applies the saturating decrement to the book,
    whatever the prior status and availability were. -/
theorem approve_effect (actor rid bid : Nat) (d now : Int) (st : LibState)
    (r : BorrowingRecord) (b : Book)
    (hr : getRecord rid st = some r) (hb : getBook bid st = some b) :
    ∃ st', handleApprove actor rid bid d now st = .ok st' ∧
      getRecord rid st' = some { r with
        status := .active, approved_by := some actor,
        approval_date := some now, borrow_date := some now,
        due_date := some (now + d) } ∧
      getBook bid st' = some { b with
        available_copies := max (b.available_copies - 1) 0 } := by
  refine ⟨_, rfl, ?_, ?_⟩
  · have hmap := getRecord_of_map rid st
      (fun q => if q.id = rid then
        { q with status := .active, approved_by := some actor,
                 approval_date := some now, borrow_date := some now,
                 due_date := some (now + d) } else q)
      (fun q => by by_cases hq : q.id = rid <;> simp [hq])
      (decrement_available_copies bid st.books) st.reservations
    rw [hmap, hr]
    simp only [Option.map]
    rw [if_pos (getRecord_id hr)]
  · have hmap := getBook_of_map bid st
      (fun c => if c.id = bid then
        { c with available_copies := max (c.available_copies - 1) 0 } else c)
      (fun c => by by_cases hc : c.id = bid <;> simp [hc])
      (st.records.map fun q => if q.id = rid then
        { q with status := .active, approved_by := some actor,
                 approval_date := some now, borrow_date := some now,
                 due_date := some (now + d) } else q)
      st.reservations
    simp only [decrement_available_copies]
    rw [hmap, hb]
    simp only [Option.map]
    rw [if_pos (getBook_id hb)]

/-- C1 counterexample: on a pending record whose book has zero available
    copies, handleApprove does not fail with NoCopiesAvailable and does
    not leave the record pending: it returns ok with the record switched
    to active and the availability still 0 (the decrement saturates). -/
theorem approve_zero_copies_cex :
    handleApprove 99 10 1 14 0
      { books := [{ id := 1, total_copies := 1, available_copies := 0,
                    requires_approval := true, max_borrow_days := 14 }],
        records := [{ id := 10, user_id := 5, book_id := 1,
                      status := .pending, request_date := 0,
                      approval_date := none, approved_by := none,
                      borrow_date := none, due_date := none,
                      return_date := none, renewal_count := 0 }],
        reservations := [] } =
    Except.ok
      { books := [{ id := 1, total_copies := 1, available_copies := 0,
                    requires_approval := true, max_borrow_days := 14 }],
        records := [{ id := 10, user_id := 5, book_id := 1,
                      status := .active, request_date := 0,
                      approval_date := some 0, approved_by := some 99,
                      borrow_date := some 0, due_date := some 14,
                      return_date := none, renewal_count := 0 }],
        reservations := [] } := rfl

/-- C1 amended: Approve on a pending record whose book has
    available_copies = 0 does not fail; it returns ok, the record becomes
    active with the approval fields set, and the book row is unchanged
    because the saturating decrement leaves 0 at 0.  No NoCopiesAvailable
    error and no pending outcome exist on this path. -/
theorem approve_zero_copies_saturates (actor rid bid : Nat) (d now : Int)
    (st : LibState) (r : BorrowingRecord) (b : Book)
    (hr : getRecord rid st = some r) (_hs : r.status = .pending)
    (hb : getBook bid st = some b) (hz : b.available_copies = 0) :
    ∃ st', handleApprove actor rid bid d now st = .ok st' ∧
      getRecord rid st' = some { r with
        status := .active, approved_by := some actor,
        approval_date := some now, borrow_date := some now,
        due_date := some (now + d) } ∧
      getBook bid st' = some b := by
  obtain ⟨st', h1, h2, h3⟩ := approve_effect actor rid bid d now st r b hr hb
  refine ⟨st', h1, h2, ?_⟩
  rw [h3]
  obtain ⟨i, tc, ac, ra, mb⟩ := b
  simp only at hz
  subst hz
  rfl

/-- C1 witness for the amended theorem at a concrete state. -/
theorem approve_zero_copies_saturates_witness :
    ∃ st', handleApprove 99 10 1 14 0
      { books := [{ id := 1, total_copies := 1, available_copies := 0,
                    requires_approval := true, max_borrow_days := 14 }],
        records := [{ id := 10, user_id := 5, book_id := 1,
                      status := .pending, request_date := 0,
                      approval_date := none, approved_by := none,
                      borrow_date := none, due_date := none,
                      return_date := none, renewal_count := 0 }],
        reservations := [] } = .ok st' ∧
      getRecord 10 st' = some { id := 10, user_id := 5, book_id := 1,
                                status := .active, request_date := 0,
                                approval_date := some 0, approved_by := some 99,
                                borrow_date := some 0, due_date := some 14,
                                return_date := none, renewal_count := 0 } ∧
      getBook 1 st' = some { id := 1, total_copies := 1, available_copies := 0,
                             requires_approval := true, max_borrow_days := 14 } :=
  approve_zero_copies_saturates 99 10 1 14 0 _
    { id := 10, user_id := 5, book_id := 1, status := .pending,
      request_date := 0, approval_date := none, approved_by := none,
      borrow_date := none, due_date := none, return_date := none,
      renewal_count := 0 }
    { id := 1, total_copies := 1, available_copies := 0,
      requires_approval := true, max_borrow_days := 14 }
    rfl rfl rfl rfl

/-- C3: the self-service borrow path is broken.  When requires_approval
    is false, handleBorrow inserts a record with status active, but the
    row-level insert policy on borrowing_records accepts only status
    pending, so the insert is denied: no record is created, no borrow or
    due date is set, and availability is not decremented (handleBorrow
    never calls the decrement procedure at all). -/
theorem selfservice_borrow_denied (uid newId : Nat) (now : Int)
    (book : Book) (st : LibState) (h : book.requires_approval = false) :
    handleBorrow uid book newId now st = .error .Unauthorized := by
  unfold handleBorrow
  rw [if_neg]
  simp [canInsertBorrowingRecord, h]

/-- C3 witness at a concrete no-approval book. -/
theorem selfservice_borrow_denied_witness :
    handleBorrow 5
      { id := 1, total_copies := 3, available_copies := 3,
        requires_approval := false, max_borrow_days := 14 }
      20 0 { books := [], records := [], reservations := [] } =
    .error .Unauthorized :=
  selfservice_borrow_denied 5 20 0
    { id := 1, total_copies := 3, available_copies := 3,
      requires_approval := false, max_borrow_days := 14 }
    { books := [], records := [], reservations := [] } rfl

/-- C5 counterexample: approving the same record twice.  The book starts
    with 2 available copies; the first approve brings it to 1; the second
    approve on the now-active record does not fail with InvalidTransition
    but returns ok and decrements again, to 0. -/
theorem double_approve_cex :
    handleApprove 99 10 1 14 0
      { books := [{ id := 1, total_copies := 2, available_copies := 2,
                    requires_approval := true, max_borrow_days := 14 }],
        records := [{ id := 10, user_id := 5, book_id := 1,
                      status := .pending, request_date := 0,
                      approval_date := none, approved_by := none,
                      borrow_date := none, due_date := none,
                      return_date := none, renewal_count := 0 }],
        reservations := [] } =
    Except.ok
      { books := [{ id := 1, total_copies := 2, available_copies := 1,
                    requires_approval := true, max_borrow_days := 14 }],
        records := [{ id := 10, user_id := 5, book_id := 1,
                      status := .active, request_date := 0,
                      approval_date := some 0, approved_by := some 99,
                      borrow_date := some 0, due_date := some 14,
                      return_date := none, renewal_count := 0 }],
        reservations := [] } ∧
    handleApprove 99 10 1 14 0
      { books := [{ id := 1, total_copies := 2, available_copies := 1,
                    requires_approval := true, max_borrow_days := 14 }],
        records := [{ id := 10, user_id := 5, book_id := 1,
                      status := .active, request_date := 0,
                      approval_date := some 0, approved_by := some 99,
                      borrow_date := some 0, due_date := some 14,
                      return_date := none, renewal_count := 0 }],
        reservations := [] } =
    Except.ok
      { books := [{ id := 1, total_copies := 2, available_copies := 0,
                    requires_approval := true, max_borrow_days := 14 }],
        records := [{ id := 10, user_id := 5, book_id := 1,
                      status := .active, request_date := 0,
                      approval_date := some 0, approved_by := some 99,
                      borrow_date := some 0, due_date := some 14,
                      return_date := none, renewal_count := 0 }],
        reservations := [] } := ⟨rfl, rfl⟩

/-- C5 amended: a second Approve on an already-approved (active) record
    does not fail with InvalidTransition; handleApprove filters only on
    the record id, so it returns ok, rewrites the approval fields again,
    and decrements the availability a second time (saturating at 0). -/
theorem second_approve_decrements_again (actor rid bid : Nat) (d now : Int)
    (st : LibState) (r : BorrowingRecord) (b : Book)
    (hr : getRecord rid st = some r) (_hs : r.status = .active)
    (hb : getBook bid st = some b) :
    ∃ st', handleApprove actor rid bid d now st = .ok st' ∧
      getRecord rid st' = some { r with
        status := .active, approved_by := some actor,
        approval_date := some now, borrow_date := some now,
        due_date := some (now + d) } ∧
      getBook bid st' = some { b with
        available_copies := max (b.available_copies - 1) 0 } :=
  approve_effect actor rid bid d now st r b hr hb

/-- C5 witness for the amended theorem: the second approve of the
    counterexample scenario, applied through the theorem. -/
theorem second_approve_decrements_again_witness :
    ∃ st', handleApprove 99 10 1 14 0
      { books := [{ id := 1, total_copies := 2, available_copies := 1,
                    requires_approval := true, max_borrow_days := 14 }],
        records := [{ id := 10, user_id := 5, book_id := 1,
                      status := .active, request_date := 0,
                      approval_date := some 0, approved_by := some 99,
                      borrow_date := some 0, due_date := some 14,
                      return_date := none, renewal_count := 0 }],
        reservations := [] } = .ok st' ∧
      getRecord 10 st' = some { id := 10, user_id := 5, book_id := 1,
                                status := .active, request_date := 0,
                                approval_date := some 0, approved_by := some 99,
                                borrow_date := some 0, due_date := some 14,
                                return_date := none, renewal_count := 0 } ∧
      getBook 1 st' = some { id := 1, total_copies := 2,
                             available_copies := max (1 - 1) 0,
                             requires_approval := true, max_borrow_days := 14 } :=
  second_approve_decrements_again 99 10 1 14 0 _
    { id := 10, user_id := 5, book_id := 1, status := .active,
      request_date := 0, approval_date := some 0, approved_by := some 99,
      borrow_date := some 0, due_date := some 14, return_date := none,
      renewal_count := 0 }
    { id := 1, total_copies := 2, available_copies := 1,
      requires_approval := true, max_borrow_days := 14 }
    rfl rfl rfl

/-- C6: the row-level insert policy on borrowing_records permits a
    creation exactly when the inserted row belongs to the acting user and
    carries initial status pending; any other owner or any other initial
    status is denied.  The policy is WITH CHECK on the table, hence
    server-side and independent of the client. -/
theorem borrow_insert_policy_iff (uid : Nat) (r : BorrowingRecord) :
    canInsertBorrowingRecord uid r = true ↔
      (r.user_id = uid ∧ r.status = BorrowStatus.pending) := by
  unfold canInsertBorrowingRecord
  rw [decide_eq_true_iff]
  exact ⟨fun ⟨h1, h2⟩ => ⟨h1.symm, h2⟩, fun ⟨h1, h2⟩ => ⟨h1.symm, h2⟩⟩

/-- C10: when no books row matches the given id, both counter procedures
    complete and change nothing.  Their SQL bodies are a bare UPDATE whose
    WHERE clause matches no row, which plpgsql treats as success, and the
    functions return void either way, so a caller cannot tell a missing
    book from a successful counter update by the result; in the model the
    procedures are total functions with no error outcome. -/
theorem counter_procs_missing_book (bid : Nat) (books : List Book)
    (h : ∀ b ∈ books, b.id ≠ bid) :
    decrement_available_copies bid books = books ∧
    increment_available_copies bid books = books := by
  constructor
  · unfold decrement_available_copies
    exact map_update_not_found (fun b => b.id) bid _ books h
  · unfold increment_available_copies
    exact map_update_not_found (fun b => b.id) bid _ books h

/-- C10 witness at a store holding one book with a different id. -/
theorem counter_procs_missing_book_witness :
    decrement_available_copies 2
      [{ id := 1, total_copies := 3, available_copies := 2,
         requires_approval := false, max_borrow_days := 14 }] =
      [{ id := 1, total_copies := 3, available_copies := 2,
         requires_approval := false, max_borrow_days := 14 }] ∧
    increment_available_copies 2
      [{ id := 1, total_copies := 3, available_copies := 2,
         requires_approval := false, max_borrow_days := 14 }] =
      [{ id := 1, total_copies := 3, available_copies := 2,
         requires_approval := false, max_borrow_days := 14 }] :=
  counter_procs_missing_book 2 _ (by decide)

/-- C2: every operation of the core that returns ok preserves the
    availability invariant 0 <= available_copies <= total_copies on every
    book row; an operation that fails returns no successor state, so the
    invariant holds after every operation. -/
theorem availability_invariant_preserved (op : Op) (st st' : LibState)
    (hinv : booksInv st) (h : applyOp op st = .ok st') : booksInv st' := by
  cases op with
  | borrow uid book newId now =>
    simp only [applyOp, handleBorrow] at h
    split at h <;> split at h <;>
      first
        | (cases h; exact hinv)
        | exact Except.noConfusion h
  | approve actor recordId bookId d now =>
    simp only [applyOp, handleApprove] at h
    cases h
    exact decrement_preserves_inv bookId st.books hinv
  | reject actor recordId now =>
    simp only [applyOp, handleReject] at h
    cases h; exact hinv
  | ret recordId bookId now =>
    simp only [applyOp, handleReturn] at h
    cases h
    exact increment_preserves_inv bookId st.books hinv
  | renew recordId =>
    simp only [applyOp, handleRenew] at h
    split at h
    · cases h; exact hinv
    · split at h
      · exact Except.noConfusion h
      · split at h
        · cases h; exact hinv
        · cases h; exact hinv
  | reserve uid bookId newId now =>
    simp only [applyOp, handleReserve] at h
    split at h
    · exact Except.noConfusion h
    · cases h; exact hinv
  | cancel reservationId =>
    simp only [applyOp, handleCancelReservation] at h
    cases h; exact hinv
  | dec bookId =>
    simp only [applyOp] at h
    cases h
    exact decrement_preserves_inv bookId st.books hinv
  | inc bookId =>
    simp only [applyOp] at h
    cases h
    exact increment_preserves_inv bookId st.books hinv

/-- C2 witness: the decrement operation on a concrete one-book store. -/
theorem availability_invariant_preserved_witness :
    booksInv { books := [{ id := 1, total_copies := 1, available_copies := 0,
                           requires_approval := false, max_borrow_days := 14 }],
               records := [], reservations := [] } :=
  availability_invariant_preserved (.dec 1)
    { books := [{ id := 1, total_copies := 1, available_copies := 1,
                  requires_approval := false, max_borrow_days := 14 }],
      records := [], reservations := [] }
    { books := [{ id := 1, total_copies := 1, available_copies := 0,
                  requires_approval := false, max_borrow_days := 14 }],
      records := [], reservations := [] }
    (by decide) rfl

/-- C7: on an active record, handleRenew below the cap extends due_date
    from the current due date by the books row field max_borrow_days and
    adds one to renewal_count, leaving the books table (hence
    available_copies) untouched; at renewal_count = 2 it fails with
    RenewalLimitReached and returns no successor state, so due_date and
    renewal_count are unchanged. -/
theorem renew_spec (rid : Nat) (st : LibState) (r : BorrowingRecord)
    (b : Book) (t : Int)
    (hr : getRecord rid st = some r) (_hs : r.status = .active)
    (hb : getBook r.book_id st = some b) (hd : r.due_date = some t) :
    (r.renewal_count < 2 →
      ∃ st', handleRenew rid st = .ok st' ∧
        getRecord rid st' = some { r with
          due_date := some (t + b.max_borrow_days),
          renewal_count := r.renewal_count + 1 } ∧
        st'.books = st.books) ∧
    (r.renewal_count = 2 →
      handleRenew rid st = .error .RenewalLimitReached) := by
  constructor
  · intro hlt
    have h2 : ¬ (r.renewal_count ≥ 2) := by omega
    have heq : handleRenew rid st =
        .ok { st with records := st.records.map fun q =>
                if q.id = rid then
                  { q with due_date := r.due_date.map (· + b.max_borrow_days),
                           renewal_count := r.renewal_count + 1 }
                else q } := by
      unfold handleRenew
      rw [hr]
      simp only [if_neg h2]
      rw [hb]
    refine ⟨_, heq, ?_, rfl⟩
    have hmap := getRecord_of_map rid st
      (fun q => if q.id = rid then
        { q with due_date := r.due_date.map (· + b.max_borrow_days),
                 renewal_count := r.renewal_count + 1 } else q)
      (fun q => by by_cases hq : q.id = rid <;> simp [hq])
      st.books st.reservations
    rw [hmap, hr]
    simp only [Option.map]
    rw [if_pos (getRecord_id hr), hd]
  · intro h2
    unfold handleRenew
    rw [hr]
    simp only [if_pos (show r.renewal_count ≥ 2 by omega)]

/-- C7 witness at a concrete active record with renewal_count 0. -/
theorem renew_spec_witness :
    ((0 : Int) < 2 →
      ∃ st', handleRenew 10
        { books := [{ id := 1, total_copies := 1, available_copies := 0,
                      requires_approval := false, max_borrow_days := 14 }],
          records := [{ id := 10, user_id := 5, book_id := 1,
                        status := .active, request_date := 0,
                        approval_date := some 0, approved_by := some 99,
                        borrow_date := some 0, due_date := some 14,
                        return_date := none, renewal_count := 0 }],
          reservations := [] } = .ok st' ∧
        getRecord 10 st' = some { id := 10, user_id := 5, book_id := 1,
                                  status := .active, request_date := 0,
                                  approval_date := some 0, approved_by := some 99,
                                  borrow_date := some 0, due_date := some (14 + 14),
                                  return_date := none, renewal_count := 0 + 1 } ∧
        st'.books = [{ id := 1, total_copies := 1, available_copies := 0,
                       requires_approval := false, max_borrow_days := 14 }]) ∧
    ((0 : Int) = 2 →
      handleRenew 10
        { books := [{ id := 1, total_copies := 1, available_copies := 0,
                      requires_approval := false, max_borrow_days := 14 }],
          records := [{ id := 10, user_id := 5, book_id := 1,
                        status := .active, request_date := 0,
                        approval_date := some 0, approved_by := some 99,
                        borrow_date := some 0, due_date := some 14,
                        return_date := none, renewal_count := 0 }],
          reservations := [] } = .error .RenewalLimitReached) :=
  renew_spec 10
    { books := [{ id := 1, total_copies := 1, available_copies := 0,
                  requires_approval := false, max_borrow_days := 14 }],
      records := [{ id := 10, user_id := 5, book_id := 1,
                    status := .active, request_date := 0,
                    approval_date := some 0, approved_by := some 99,
                    borrow_date := some 0, due_date := some 14,
                    return_date := none, renewal_count := 0 }],
      reservations := [] }
    { id := 10, user_id := 5, book_id := 1, status := .active,
      request_date := 0, approval_date := some 0, approved_by := some 99,
      borrow_date := some 0, due_date := some 14, return_date := none,
      renewal_count := 0 }
    { id := 1, total_copies := 1, available_copies := 0,
      requires_approval := false, max_borrow_days := 14 }
    14 rfl rfl rfl rfl

/-- Effect of handleReturn on the returned record and its book: ok
    result, record rewritten to returned with return_date set, and the
    saturating increment applied to the book. -/
theorem return_effect (rid bid : Nat) (now : Int) (st : LibState)
    (r : BorrowingRecord) (b : Book)
    (hr : getRecord rid st = some r) (hb : getBook bid st = some b) :
    ∃ st', handleReturn rid bid now st = .ok st' ∧
      getRecord rid st' = some { r with
        status := .returned, return_date := some now } ∧
      getBook bid st' = some { b with
        available_copies := min (b.available_copies + 1) b.total_copies } := by
  refine ⟨_, rfl, ?_, ?_⟩
  · have hmap := getRecord_of_map rid st
      (fun q => if q.id = rid then
        { q with status := .returned, return_date := some now } else q)
      (fun q => by by_cases hq : q.id = rid <;> simp [hq])
      (increment_available_copies bid st.books) st.reservations
    rw [hmap, hr]
    simp only [Option.map]
    rw [if_pos (getRecord_id hr)]
  · have hmap := getBook_of_map bid st
      (fun c => if c.id = bid then
        { c with available_copies := min (c.available_copies + 1) c.total_copies } else c)
      (fun c => by by_cases hc : c.id = bid <;> simp [hc])
      (st.records.map fun q => if q.id = rid then
        { q with status := .returned, return_date := some now } else q)
      st.reservations
    simp only [increment_available_copies]
    rw [hmap, hb]
    simp only [Option.map]
    rw [if_pos (getBook_id hb)]

/-- C8: on an active record, handleReturn returns ok, sets the record to
    returned with return_date = now, and increments the availability of
    the books row, capped at total_copies; when the book is already at
    total_copies the row is unchanged. -/
theorem return_spec (rid : Nat) (now : Int) (st : LibState)
    (r : BorrowingRecord) (b : Book)
    (hr : getRecord rid st = some r) (_hs : r.status = .active)
    (hb : getBook r.book_id st = some b) :
    ∃ st', handleReturn rid r.book_id now st = .ok st' ∧
      getRecord rid st' = some { r with
        status := .returned, return_date := some now } ∧
      getBook r.book_id st' = some { b with
        available_copies := min (b.available_copies + 1) b.total_copies } ∧
      (b.available_copies = b.total_copies →
        getBook r.book_id st' = some b) := by
  obtain ⟨st', h1, h2, h3⟩ := return_effect rid r.book_id now st r b hr hb
  refine ⟨st', h1, h2, h3, fun hEq => ?_⟩
  rw [h3]
  obtain ⟨i, tc, ac, ra, mb⟩ := b
  simp only at hEq
  subst hEq
  have hmin : min (ac + 1) ac = ac := min_eq_right (by omega)
  rw [hmin]

/-- C8 witness: return of an active record on a book with one of two
    copies out. -/
theorem return_spec_witness :
    ∃ st', handleReturn 10 1 9
      { books := [{ id := 1, total_copies := 2, available_copies := 1,
                    requires_approval := false, max_borrow_days := 14 }],
        records := [{ id := 10, user_id := 5, book_id := 1,
                      status := .active, request_date := 0,
                      approval_date := some 0, approved_by := some 99,
                      borrow_date := some 0, due_date := some 14,
                      return_date := none, renewal_count := 0 }],
        reservations := [] } = .ok st' ∧
      getRecord 10 st' = some { id := 10, user_id := 5, book_id := 1,
                                status := .returned, request_date := 0,
                                approval_date := some 0, approved_by := some 99,
                                borrow_date := some 0, due_date := some 14,
                                return_date := some 9, renewal_count := 0 } ∧
      getBook 1 st' = some { id := 1, total_copies := 2,
                             available_copies := min (1 + 1) 2,
                             requires_approval := false, max_borrow_days := 14 } ∧
      ((1 : Int) = 2 →
        getBook 1 st' = some { id := 1, total_copies := 2, available_copies := 1,
                               requires_approval := false, max_borrow_days := 14 }) :=
  return_spec 10 9 _
    { id := 10, user_id := 5, book_id := 1, status := .active,
      request_date := 0, approval_date := some 0, approved_by := some 99,
      borrow_date := some 0, due_date := some 14, return_date := none,
      renewal_count := 0 }
    { id := 1, total_copies := 2, available_copies := 1,
      requires_approval := false, max_borrow_days := 14 }
    rfl rfl rfl

/-- C9: handleReserve preserves the at-most-one-active-reservation
    invariant per (user, book) pair, and when an active row already
    exists for the pair it fails with DuplicateReservation and returns no
    successor state, leaving the stored rows unchanged. -/
theorem reservation_active_unique (uid bid newId : Nat) (now : Int)
    (st : LibState) (hinv : resInv st.reservations) :
    (∀ st', handleReserve uid bid newId now st = .ok st' →
      resInv st'.reservations) ∧
    ((∃ s ∈ st.reservations, s.user_id = uid ∧ s.book_id = bid ∧
        s.status = ReservationStatus.active) →
      handleReserve uid bid newId now st = .error .DuplicateReservation) := by
  constructor
  · intro st' h
    simp only [handleReserve] at h
    split at h
    · exact Except.noConfusion h
    · rename_i hclash
      cases h
      refine List.Pairwise.cons ?_ hinv
      intro c hc hcontra
      obtain ⟨ha1, ha2, ha3, ha4⟩ := hcontra
      apply hclash
      unfold reservationKeyClash
      rw [List.any_eq_true]
      exact ⟨c, hc, decide_eq_true ⟨ha3.symm, ha4.symm, ha2⟩⟩
  · rintro ⟨s, hsm, h1, h2, h3⟩
    have hc : reservationKeyClash
        { id := newId, user_id := uid, book_id := bid,
          status := .active, reservation_date := now,
          expiry_date := now + 7 } st.reservations = true := by
      unfold reservationKeyClash
      rw [List.any_eq_true]
      exact ⟨s, hsm, decide_eq_true ⟨h1, h2, h3⟩⟩
    simp only [handleReserve]
    rw [if_pos hc]

/-- C9 witness: a second active reservation for the same pair is
    rejected, and the insert into an empty table keeps the invariant. -/
theorem reservation_active_unique_witness :
    (∀ st', handleReserve 5 1 30 0
        { books := [], records := [],
          reservations := [{ id := 29, user_id := 5, book_id := 1,
                             status := .active, reservation_date := 0,
                             expiry_date := 7 }] } = .ok st' →
      resInv st'.reservations) ∧
    ((∃ s ∈ ([{ id := 29, user_id := 5, book_id := 1,
                status := ReservationStatus.active, reservation_date := 0,
                expiry_date := 7 }] : List Reservation),
        s.user_id = 5 ∧ s.book_id = 1 ∧
        s.status = ReservationStatus.active) →
      handleReserve 5 1 30 0
        { books := [], records := [],
          reservations := [{ id := 29, user_id := 5, book_id := 1,
                             status := .active, reservation_date := 0,
                             expiry_date := 7 }] } =
        .error .DuplicateReservation) :=
  reservation_active_unique 5 1 30 0
    { books := [], records := [],
      reservations := [{ id := 29, user_id := 5, book_id := 1,
                         status := .active, reservation_date := 0,
                         expiry_date := 7 }] }
    (List.pairwise_singleton _ _)

/-- C4 counterexample: the operations themselves enforce no adjacency.
    handleReturn filters only on the record id, so applied to a pending
    record it stores the adjacency pending to returned, which the claim
    names as never produced. -/
theorem return_on_pending_cex :
    handleReturn 10 1 5
      { books := [{ id := 1, total_copies := 1, available_copies := 1,
                    requires_approval := true, max_borrow_days := 14 }],
        records := [{ id := 10, user_id := 5, book_id := 1,
                      status := .pending, request_date := 0,
                      approval_date := none, approved_by := none,
                      borrow_date := none, due_date := none,
                      return_date := none, renewal_count := 0 }],
        reservations := [] } =
    Except.ok
      { books := [{ id := 1, total_copies := 1, available_copies := 1,
                    requires_approval := true, max_borrow_days := 14 }],
        records := [{ id := 10, user_id := 5, book_id := 1,
                      status := .returned, request_date := 0,
                      approval_date := none, approved_by := none,
                      borrow_date := none, due_date := none,
                      return_date := some 5, renewal_count := 0 }],
        reservations := [] } := rfl

/-- C4 amended: when every operation is applied only under the status
    gating the interface performs before invoking it (approve and reject
    on pending records, return and renew on active ones, inserts with a
    fresh id), any status change an operation stores on any record
    follows pending to active, pending to rejected, or active to
    returned; a record not targeted keeps its status. -/
theorem guarded_ops_follow_state_machine (op : Op) (st st' : LibState)
    (rid : Nat) (r r' : BorrowingRecord)
    (hg : uiGuard op st = true) (h : applyOp op st = .ok st')
    (hr : getRecord rid st = some r) (hr' : getRecord rid st' = some r') :
    r'.status = r.status ∨ allowedEdge r.status r'.status = true := by
  cases op with
  | borrow uid book newId now =>
    simp only [uiGuard, Option.isNone_iff_eq_none] at hg
    simp only [applyOp, handleBorrow] at h
    split at h <;> split at h <;>
      first
        | exact Except.noConfusion h
        | (cases h
           have hne : ¬ (decide (newId = rid) = true) := by
             intro hd
             have hx : newId = rid := of_decide_eq_true hd
             rw [hx, hr] at hg
             exact Option.noConfusion hg
           simp only [getRecord, List.find?] at hr'
           rw [Bool.of_not_eq_true hne] at hr'
           have h2 : getRecord rid st = some r' := hr'
           rw [hr] at h2
           injection h2 with he
           left
           rw [← he])
  | approve actor recordId bookId d now =>
    simp only [uiGuard] at hg
    simp only [applyOp, handleApprove] at h
    cases h
    have hmap := getRecord_of_map rid st
      (fun q => if q.id = recordId then
        { q with status := .active, approved_by := some actor,
                 approval_date := some now, borrow_date := some now,
                 due_date := some (now + d) } else q)
      (fun q => by by_cases hq : q.id = recordId <;> simp [hq])
      (decrement_available_copies bookId st.books) st.reservations
    rw [hmap, hr] at hr'
    simp only [Option.map] at hr'
    by_cases hc : r.id = recordId
    · rw [if_pos hc] at hr'
      injection hr' with he
      have hrid : recordId = rid := hc ▸ getRecord_id hr
      rw [hrid, recordStatusIs, hr] at hg
      have hp : r.status = .pending := of_decide_eq_true hg
      right
      rw [← he, hp]
      rfl
    · rw [if_neg hc] at hr'
      injection hr' with he
      left
      rw [← he]
  | reject actor recordId now =>
    simp only [uiGuard] at hg
    simp only [applyOp, handleReject] at h
    cases h
    have hmap := getRecord_of_map rid st
      (fun q => if q.id = recordId then
        { q with status := .rejected, approved_by := some actor,
                 approval_date := some now } else q)
      (fun q => by by_cases hq : q.id = recordId <;> simp [hq])
      st.books st.reservations
    rw [hmap, hr] at hr'
    simp only [Option.map] at hr'
    by_cases hc : r.id = recordId
    · rw [if_pos hc] at hr'
      injection hr' with he
      have hrid : recordId = rid := hc ▸ getRecord_id hr
      rw [hrid, recordStatusIs, hr] at hg
      have hp : r.status = .pending := of_decide_eq_true hg
      right
      rw [← he, hp]
      rfl
    · rw [if_neg hc] at hr'
      injection hr' with he
      left
      rw [← he]
  | ret recordId bookId now =>
    simp only [uiGuard] at hg
    simp only [applyOp, handleReturn] at h
    cases h
    have hmap := getRecord_of_map rid st
      (fun q => if q.id = recordId then
        { q with status := .returned, return_date := some now } else q)
      (fun q => by by_cases hq : q.id = recordId <;> simp [hq])
      (increment_available_copies bookId st.books) st.reservations
    rw [hmap, hr] at hr'
    simp only [Option.map] at hr'
    by_cases hc : r.id = recordId
    · rw [if_pos hc] at hr'
      injection hr' with he
      have hrid : recordId = rid := hc ▸ getRecord_id hr
      rw [hrid, recordStatusIs, hr] at hg
      have hp : r.status = .active := of_decide_eq_true hg
      right
      rw [← he, hp]
      rfl
    · rw [if_neg hc] at hr'
      injection hr' with he
      left
      rw [← he]
  | renew recordId =>
    simp only [applyOp, handleRenew] at h
    split at h
    · cases h
      rw [hr] at hr'
      injection hr' with he
      left
      rw [← he]
    · rename_i rr hrr
      split at h
      · exact Except.noConfusion h
      · split at h
        · cases h
          rw [hr] at hr'
          injection hr' with he
          left
          rw [← he]
        · rename_i bb hbb
          cases h
          have hmap := getRecord_of_map rid st
            (fun q => if q.id = recordId then
              { q with due_date := rr.due_date.map (· + bb.max_borrow_days),
                       renewal_count := rr.renewal_count + 1 } else q)
            (fun q => by by_cases hq : q.id = recordId <;> simp [hq])
            st.books st.reservations
          rw [hmap, hr] at hr'
          simp only [Option.map] at hr'
          by_cases hc : r.id = recordId
          · rw [if_pos hc] at hr'
            injection hr' with he
            left
            rw [← he]
          · rw [if_neg hc] at hr'
            injection hr' with he
            left
            rw [← he]
  | reserve uid bookId newId now =>
    simp only [applyOp, handleReserve] at h
    split at h
    · exact Except.noConfusion h
    · cases h
      have h2 : getRecord rid st = some r' := hr'
      rw [hr] at h2
      injection h2 with he
      left
      rw [← he]
  | cancel reservationId =>
    simp only [applyOp, handleCancelReservation] at h
    cases h
    have h2 : getRecord rid st = some r' := hr'
    rw [hr] at h2
    injection h2 with he
    left
    rw [← he]
  | dec bookId =>
    simp only [applyOp] at h
    cases h
    have h2 : getRecord rid st = some r' := hr'
    rw [hr] at h2
    injection h2 with he
    left
    rw [← he]
  | inc bookId =>
    simp only [applyOp] at h
    cases h
    have h2 : getRecord rid st = some r' := hr'
    rw [hr] at h2
    injection h2 with he
    left
    rw [← he]

/-- C4 witness: approving a pending record under the gating stores the
    allowed adjacency pending to active. -/
theorem guarded_ops_follow_state_machine_witness :
    ({ id := 10, user_id := 5, book_id := 1, status := .active,
       request_date := 0, approval_date := some 0, approved_by := some 99,
       borrow_date := some 0, due_date := some 14, return_date := none,
       renewal_count := 0 } : BorrowingRecord).status =
      ({ id := 10, user_id := 5, book_id := 1, status := .pending,
         request_date := 0, approval_date := none, approved_by := none,
         borrow_date := none, due_date := none, return_date := none,
         renewal_count := 0 } : BorrowingRecord).status ∨
    allowedEdge
      ({ id := 10, user_id := 5, book_id := 1, status := .pending,
         request_date := 0, approval_date := none, approved_by := none,
         borrow_date := none, due_date := none, return_date := none,
         renewal_count := 0 } : BorrowingRecord).status
      ({ id := 10, user_id := 5, book_id := 1, status := .active,
         request_date := 0, approval_date := some 0, approved_by := some 99,
         borrow_date := some 0, due_date := some 14, return_date := none,
         renewal_count := 0 } : BorrowingRecord).status = true :=
  guarded_ops_follow_state_machine (.approve 99 10 1 14 0)
    { books := [{ id := 1, total_copies := 1, available_copies := 1,
                  requires_approval := true, max_borrow_days := 14 }],
      records := [{ id := 10, user_id := 5, book_id := 1,
                    status := .pending, request_date := 0,
                    approval_date := none, approved_by := none,
                    borrow_date := none, due_date := none,
                    return_date := none, renewal_count := 0 }],
      reservations := [] }
    { books := [{ id := 1, total_copies := 1, available_copies := 0,
                  requires_approval := true, max_borrow_days := 14 }],
      records := [{ id := 10, user_id := 5, book_id := 1,
                    status := .active, request_date := 0,
                    approval_date := some 0, approved_by := some 99,
                    borrow_date := some 0, due_date := some 14,
                    return_date := none, renewal_count := 0 }],
      reservations := [] }
    10
    { id := 10, user_id := 5, book_id := 1, status := .pending,
      request_date := 0, approval_date := none, approved_by := none,
      borrow_date := none, due_date := none, return_date := none,
      renewal_count := 0 }
    { id := 10, user_id := 5, book_id := 1, status := .active,
      request_date := 0, approval_date := some 0, approved_by := some 99,
      borrow_date := some 0, due_date := some 14, return_date := none,
      renewal_count := 0 }
    (by decide) rfl rfl rfl

end UniLib
